import Mathlib

/-!
Verification of `src/python/micromorphic_linear_elasticity.py`.

Tensors are stored flattened exactly as in the source: orders 2, 3, 4, 6 over
dimension 3 live in vectors of length 9, 27, 81, 729, addressed through the
row-major index mapper (first index slowest).  The index mapper, the 3x3
matrix inversion and the matrix symmetrization come from the collaborator
module `hex8`, which is not part of the sources here; those are modelled from
the spec (sections 4.1, 4.4 and 6) and carry a `Modelled from the spec:` note.
All scalar arithmetic is modelled over the rationals (exact field arithmetic; the Python source uses floats, whose rounding is outside this development).
-/

namespace Micromorphic

/-- Modelled from the spec: `hex8.T_to_V_mapping` (spec 4.1, row-major, first
index varies slowest), specialized to two axes of dimension 3.  `hex8.py` is
missing from the sources. -/
def T2V2 (i j : Fin 3) : Fin 9 :=
  ⟨3 * i.val + j.val, by have hi := i.isLt; have hj := j.isLt; omega⟩

/-- Modelled from the spec: `hex8.T_to_V_mapping` for three axes of dimension 3. -/
def T2V3 (i j k : Fin 3) : Fin 27 :=
  ⟨9 * i.val + 3 * j.val + k.val, by
    have hi := i.isLt; have hj := j.isLt; have hk := k.isLt; omega⟩

/-- Modelled from the spec: `hex8.T_to_V_mapping` for four axes of dimension 3. -/
def T2V4 (i j k l : Fin 3) : Fin 81 :=
  ⟨27 * i.val + 9 * j.val + 3 * k.val + l.val, by
    have hi := i.isLt; have hj := j.isLt; have hk := k.isLt; have hl := l.isLt; omega⟩

/-- Modelled from the spec: `hex8.T_to_V_mapping` for six axes of dimension 3. -/
def T2V6 (i j k l m n : Fin 3) : Fin 729 :=
  ⟨243 * i.val + 81 * j.val + 27 * k.val + 9 * l.val + 3 * m.val + n.val, by
    have hi := i.isLt; have hj := j.isLt; have hk := k.isLt
    have hl := l.isLt; have hm := m.isLt; have hn := n.isLt; omega⟩

/-- Modelled from the spec: `hex8.V_to_T_mapping` (spec 4.1), two axes. -/
def V2T2 (v : Fin 9) : Fin 3 × Fin 3 :=
  (⟨v.val / 3, by have := v.isLt; omega⟩, ⟨v.val % 3, by omega⟩)

/-- Modelled from the spec: `hex8.V_to_T_mapping`, three axes. -/
def V2T3 (v : Fin 27) : Fin 3 × Fin 3 × Fin 3 :=
  (⟨v.val / 9, by have := v.isLt; omega⟩, ⟨v.val / 3 % 3, by omega⟩, ⟨v.val % 3, by omega⟩)

/-- Modelled from the spec: `hex8.V_to_T_mapping`, four axes. -/
def V2T4 (v : Fin 81) : Fin 3 × Fin 3 × Fin 3 × Fin 3 :=
  (⟨v.val / 27, by have := v.isLt; omega⟩, ⟨v.val / 9 % 3, by omega⟩,
   ⟨v.val / 3 % 3, by omega⟩, ⟨v.val % 3, by omega⟩)

/-- Modelled from the spec: `hex8.V_to_T_mapping`, six axes. -/
def V2T6 (v : Fin 729) : Fin 3 × Fin 3 × Fin 3 × Fin 3 × Fin 3 × Fin 3 :=
  (⟨v.val / 243, by have := v.isLt; omega⟩, ⟨v.val / 81 % 3, by omega⟩,
   ⟨v.val / 27 % 3, by omega⟩, ⟨v.val / 9 % 3, by omega⟩,
   ⟨v.val / 3 % 3, by omega⟩, ⟨v.val % 3, by omega⟩)

theorem V2T2_T2V2 : ∀ i j : Fin 3, V2T2 (T2V2 i j) = (i, j) := by decide

theorem V2T3_T2V3 : ∀ i j k : Fin 3, V2T3 (T2V3 i j k) = (i, j, k) := by decide

theorem V2T4_T2V4 : ∀ i j k l : Fin 3, V2T4 (T2V4 i j k l) = (i, j, k, l) := by decide

theorem V2T6_T2V6 : ∀ i j k l m n : Fin 3,
    V2T6 (T2V6 i j k l m n) = (i, j, k, l, m, n) := by decide

/-- The 3x3 identity `np.eye(3)`, entrywise (the Kronecker delta). -/
def Iten (i j : Fin 3) : ℚ := if i = j then 1 else 0

theorem Iten_comm (i j : Fin 3) : Iten i j = Iten j i := by
  simp [Iten, eq_comm]

theorem fin3_val_two : ((2 : Fin 3) : ℕ) = 2 := rfl

theorem Iten_prod_zero {k l m n : Fin 3} (h : ¬(k = l ∧ m = n)) :
    Iten k l * Iten m n = 0 := by
  by_cases hkl : k = l
  · have hmn : ¬m = n := fun hmn => h ⟨hkl, hmn⟩
    simp [Iten, hmn]
  · simp [Iten, hkl]

/-- The flattened identity `np.array([1,0,0,0,1,0,0,0,1])` built in
`compute_pk2_stress`. -/
def idV : Fin 9 → ℚ := fun v =>
  List.get [1, 0, 0, 0, 1, 0, 0, 0, 1] ⟨v.val, v.isLt⟩

theorem idV_T2V2 : ∀ i j : Fin 3, idV (T2V2 i j) = Iten i j := by
  intro i j; fin_cases i <;> fin_cases j <;> rfl

theorem idV_decode : ∀ v : Fin 9, idV v = Iten (V2T2 v).1 (V2T2 v).2 := by
  intro v; fin_cases v <;> rfl

/-- `compute_strain_measures(C, Psi)` from the source (lines 33-42): loops over
the 9 flat slots, decodes `(I, J)` with `V2T` and sets
`E_macro[index] = 0.5*(C[index] - Iten[I,J])`, `E_micro[index] = Psi[index] - Iten[I,J]`. -/
def compute_strain_measures (C Psi : Fin 9 → ℚ) : (Fin 9 → ℚ) × (Fin 9 → ℚ) :=
  (fun index => 0.5 * (C index - Iten (V2T2 index).1 (V2T2 index).2),
   fun index => Psi index - Iten (V2T2 index).1 (V2T2 index).2)

/-- `compute_dCinvdC(Cinv)` from the source (lines 44-55):
`dCinvdC[IJKL] = -Cinv[IK]*Cinv[LJ]`, built from the already-inverted `Cinv`
alone (its only argument); no inversion of `C` is performed. -/
def compute_dCinvdC (Cinv : Fin 9 → ℚ) : Fin 81 → ℚ := fun v =>
  match V2T4 v with
  | (i, j, k, l) => -Cinv (T2V2 i k) * Cinv (T2V2 l j)

/-- `form_A(LAMBDA, MU)` from the source (lines 68-78). -/
def form_A (LAMBDA MU : ℚ) : Fin 81 → ℚ := fun v =>
  match V2T4 v with
  | (k, l, m, n) =>
    LAMBDA * Iten k l * Iten m n + MU * (Iten k m * Iten l n + Iten k n * Iten l m)

/-- `form_B(ETA, TAU, KAPPA, NU, SIGMA)` from the source (lines 80-91). -/
def form_B (ETA TAU KAPPA NU SIGMA : ℚ) : Fin 81 → ℚ := fun v =>
  match V2T4 v with
  | (k, l, m, n) =>
    (ETA - TAU) * Iten k l * Iten m n + KAPPA * Iten k m * Iten l n
      + NU * Iten k n * Iten l m - SIGMA * (Iten k m * Iten l n + Iten k n * Iten l m)

/-- `form_C(TAUS)` from the source (lines 93-112): the order-6 stiffness
tensor, an 11-term sum of triple Kronecker-delta products. -/
def form_C (TAUS : Fin 11 → ℚ) : Fin 729 → ℚ := fun v =>
  match V2T6 v with
  | (k, l, m, n, p, q) =>
    TAUS 0 * (Iten k l * Iten m n * Iten p q + Iten k q * Iten l m * Iten n p)
    + TAUS 1 * (Iten k l * Iten m p * Iten n q + Iten k m * Iten l q * Iten n p)
    + TAUS 2 * (Iten k l * Iten m q * Iten n p) + TAUS 3 * (Iten k n * Iten l m * Iten p q)
    + TAUS 4 * (Iten k m * Iten l n * Iten p q + Iten k p * Iten l m * Iten n q)
    + TAUS 5 * (Iten k m * Iten l p * Iten n q) + TAUS 6 * (Iten k n * Iten l p * Iten m q)
    + TAUS 7 * (Iten k p * Iten l q * Iten m n + Iten k q * Iten l n * Iten m p)
    + TAUS 8 * (Iten k n * Iten l q * Iten m p)
    + TAUS 9 * (Iten k p * Iten l n * Iten m q) + TAUS 10 * (Iten k q * Iten l p * Iten m n)

/-- `form_D(TAU, SIGMA)` from the source (lines 114-124). -/
def form_D (TAU SIGMA : ℚ) : Fin 81 → ℚ := fun v =>
  match V2T4 v with
  | (k, l, m, n) =>
    TAU * Iten k l * Iten m n + SIGMA * (Iten k m * Iten l n + Iten k n * Iten l m)

/-- `form_stiffness_tensors(PARAMS)` from the source (lines 59-66). -/
def form_stiffness_tensors (PARAMS : ℚ × ℚ × ℚ × ℚ × ℚ × ℚ × ℚ × (Fin 11 → ℚ)) :
    (Fin 81 → ℚ) × (Fin 81 → ℚ) × (Fin 729 → ℚ) × (Fin 81 → ℚ) :=
  match PARAMS with
  | (LAMBDA, MU, ETA, TAU, KAPPA, NU, SIGMA, TAUS) =>
    (form_A LAMBDA MU, form_B ETA TAU KAPPA NU SIGMA, form_C TAUS, form_D TAU SIGMA)

/-- Determinant of a flattened 3x3 matrix, cofactor expansion along the first row. -/
def det3 (C : Fin 9 → ℚ) : ℚ :=
  C (T2V2 0 0) * (C (T2V2 1 1) * C (T2V2 2 2) - C (T2V2 1 2) * C (T2V2 2 1))
  - C (T2V2 0 1) * (C (T2V2 1 0) * C (T2V2 2 2) - C (T2V2 1 2) * C (T2V2 2 0))
  + C (T2V2 0 2) * (C (T2V2 1 0) * C (T2V2 2 1) - C (T2V2 1 1) * C (T2V2 2 0))

/-- Adjugate of a flattened 3x3 matrix: slot `(i,j)` holds the `(j,i)` cofactor. -/
def adj3 (C : Fin 9 → ℚ) : Fin 9 → ℚ := fun v =>
  if v.val = 0 then C (T2V2 1 1) * C (T2V2 2 2) - C (T2V2 1 2) * C (T2V2 2 1)
  else if v.val = 1 then C (T2V2 0 2) * C (T2V2 2 1) - C (T2V2 0 1) * C (T2V2 2 2)
  else if v.val = 2 then C (T2V2 0 1) * C (T2V2 1 2) - C (T2V2 0 2) * C (T2V2 1 1)
  else if v.val = 3 then C (T2V2 1 2) * C (T2V2 2 0) - C (T2V2 1 0) * C (T2V2 2 2)
  else if v.val = 4 then C (T2V2 0 0) * C (T2V2 2 2) - C (T2V2 0 2) * C (T2V2 2 0)
  else if v.val = 5 then C (T2V2 0 2) * C (T2V2 1 0) - C (T2V2 0 0) * C (T2V2 1 2)
  else if v.val = 6 then C (T2V2 1 0) * C (T2V2 2 1) - C (T2V2 1 1) * C (T2V2 2 0)
  else if v.val = 7 then C (T2V2 0 1) * C (T2V2 2 0) - C (T2V2 0 0) * C (T2V2 2 1)
  else C (T2V2 0 0) * C (T2V2 1 1) - C (T2V2 0 1) * C (T2V2 1 0)

/-- Modelled from the spec: `hex8.invert_3x3_matrix_V` (spec 6:
`invert(M) -> (det, Minv)`, fails on singular `M`); `hex8.py` is missing from
the sources.  Closed-form inverse through the adjugate. -/
def invert_3x3_matrix_V (C : Fin 9 → ℚ) : ℚ × (Fin 9 → ℚ) :=
  (det3 C, fun v => adj3 C v / det3 C)

/-- Modelled from the spec: `hex8.get_symm_matrix_V` (spec 4.4/6, the
symmetrization helper): the symmetric part `(M + M^T)/2` of a flattened 3x3
matrix. -/
def get_symm_matrix_V (M : Fin 9 → ℚ) : Fin 9 → ℚ := fun v =>
  (M v + M (T2V2 (V2T2 v).2 (V2T2 v).1)) / 2

/-- `compute_pk2_stress` from the source (lines 128-180).  `Cinv` is taken from
`invert_3x3_matrix_V`, `STRAIN_TERM = E_micro + I` with `I` the flattened
identity; the three accumulation loop nests become the corresponding sums.
Returns `(PK2, TERM1, TERM2)`. -/
def compute_pk2_stress (AFOT BFOT : Fin 81 → ℚ) (CFOT : Fin 729 → ℚ)
    (DFOT : Fin 81 → ℚ) ( E_mac E_mic C : Fin 9 → ℚ) (Gamma : Fin 27 → ℚ) :
    (Fin 9 → ℚ) × (Fin 9 → ℚ) × (Fin 9 → ℚ) :=
  let Cinv := (invert_3x3_matrix_V C).2
  let STRAIN_TERM : Fin 9 → ℚ := fun v => E_mic v + idV v
  let TERM1 : Fin 9 → ℚ := fun IJ =>
    match V2T2 IJ with
    | (i, j) => ∑ k : Fin 3, ∑ l : Fin 3,
        (AFOT (T2V4 i j k l) * E_mac (T2V2 k l) + DFOT (T2V4 i j k l) * E_mic (T2V2 k l))
  let TERM2 : Fin 9 → ℚ := fun IJ =>
    match V2T2 IJ with
    | (i, j) =>
      (∑ k : Fin 3, ∑ l : Fin 3, ∑ q : Fin 3, ∑ r : Fin 3,
        (BFOT (T2V4 i q k l) * E_mic (T2V2 k l) + DFOT (T2V4 i q k l) * E_mac (T2V2 k l))
          * STRAIN_TERM (T2V2 r q) * Cinv (T2V2 j r))
      + (∑ l : Fin 3, ∑ m : Fin 3, ∑ n : Fin 3, ∑ q : Fin 3, ∑ r : Fin 3, ∑ s : Fin 3,
        CFOT (T2V6 i q r l m n) * Gamma (T2V3 l m n) * Cinv (T2V2 j s) * Gamma (T2V3 s q r))
  (fun IJ => TERM1 IJ + TERM2 IJ, TERM1, TERM2)

/-- `compute_symmetric_stress(TERM1, TERM2)` from the source (lines 182-190):
`SIGMA = TERM1 + 2 * symm(TERM2)`. -/
def compute_symmetric_stress (TERM1 TERM2 : Fin 9 → ℚ) : Fin 9 → ℚ :=
  let TERM2_SYMM := get_symm_matrix_V TERM2
  fun IJ => TERM1 IJ + 2 * TERM2_SYMM IJ

/-- `compute_ho_stress(CFOT, Gamma)` from the source (lines 192-205):
`M[KLM] = sum CFOT[KLMNPQ] * Gamma[NPQ]`. -/
def compute_ho_stress (CFOT : Fin 729 → ℚ) (Gamma : Fin 27 → ℚ) : Fin 27 → ℚ :=
  fun KLM =>
    match V2T3 KLM with
    | (k, l, m) => ∑ n : Fin 3, ∑ p : Fin 3, ∑ q : Fin 3,
        CFOT (T2V6 k l m n p q) * Gamma (T2V3 n p q)

/-- Running the stress pipeline of the source (as exercised by its tests):
form the stiffness tensors, compute the strain measures, then `compute_pk2_stress`. -/
def pk2_pipeline (PARAMS : ℚ × ℚ × ℚ × ℚ × ℚ × ℚ × ℚ × (Fin 11 → ℚ))
    (C Phi : Fin 9 → ℚ) (Gamma : Fin 27 → ℚ) :
    (Fin 9 → ℚ) × (Fin 9 → ℚ) × (Fin 9 → ℚ) :=
  let S := form_stiffness_tensors PARAMS
  let E := compute_strain_measures C Phi
  compute_pk2_stress S.1 S.2.1 S.2.2.1 S.2.2.2 E.1 E.2 C Gamma

/-- The symmetric stress produced by the pipeline: `compute_symmetric_stress`
applied to the `TERM1`, `TERM2` returned by `compute_pk2_stress`. -/
def sigma_pipeline (PARAMS : ℚ × ℚ × ℚ × ℚ × ℚ × ℚ × ℚ × (Fin 11 → ℚ))
    (C Phi : Fin 9 → ℚ) (Gamma : Fin 27 → ℚ) : Fin 9 → ℚ :=
  compute_symmetric_stress (pk2_pipeline PARAMS C Phi Gamma).2.1
    (pk2_pipeline PARAMS C Phi Gamma).2.2

theorem form_A_eval (LAMBDA MU : ℚ) (k l m n : Fin 3) :
    form_A LAMBDA MU (T2V4 k l m n)
      = LAMBDA * Iten k l * Iten m n + MU * (Iten k m * Iten l n + Iten k n * Iten l m) := by
  simp [form_A, V2T4_T2V4]

theorem form_B_eval (ETA TAU KAPPA NU SIGMA : ℚ) (k l m n : Fin 3) :
    form_B ETA TAU KAPPA NU SIGMA (T2V4 k l m n)
      = (ETA - TAU) * Iten k l * Iten m n + KAPPA * Iten k m * Iten l n
        + NU * Iten k n * Iten l m - SIGMA * (Iten k m * Iten l n + Iten k n * Iten l m) := by
  simp [form_B, V2T4_T2V4]

theorem form_D_eval (TAU SIGMA : ℚ) (k l m n : Fin 3) :
    form_D TAU SIGMA (T2V4 k l m n)
      = TAU * Iten k l * Iten m n + SIGMA * (Iten k m * Iten l n + Iten k n * Iten l m) := by
  simp [form_D, V2T4_T2V4]

theorem form_C_eval (TAUS : Fin 11 → ℚ) (k l m n p q : Fin 3) :
    form_C TAUS (T2V6 k l m n p q)
      = TAUS 0 * (Iten k l * Iten m n * Iten p q + Iten k q * Iten l m * Iten n p)
        + TAUS 1 * (Iten k l * Iten m p * Iten n q + Iten k m * Iten l q * Iten n p)
        + TAUS 2 * (Iten k l * Iten m q * Iten n p) + TAUS 3 * (Iten k n * Iten l m * Iten p q)
        + TAUS 4 * (Iten k m * Iten l n * Iten p q + Iten k p * Iten l m * Iten n q)
        + TAUS 5 * (Iten k m * Iten l p * Iten n q) + TAUS 6 * (Iten k n * Iten l p * Iten m q)
        + TAUS 7 * (Iten k p * Iten l q * Iten m n + Iten k q * Iten l n * Iten m p)
        + TAUS 8 * (Iten k n * Iten l q * Iten m p)
        + TAUS 9 * (Iten k p * Iten l n * Iten m q)
        + TAUS 10 * (Iten k q * Iten l p * Iten m n) := by
  simp [form_C, V2T6_T2V6]

theorem form_A_swap12 (LAMBDA MU : ℚ) (k l m n : Fin 3) :
    form_A LAMBDA MU (T2V4 k l m n) = form_A LAMBDA MU (T2V4 l k m n) := by
  rw [form_A_eval, form_A_eval, Iten_comm k l]; ring

theorem form_A_swap34 (LAMBDA MU : ℚ) (k l m n : Fin 3) :
    form_A LAMBDA MU (T2V4 k l m n) = form_A LAMBDA MU (T2V4 k l n m) := by
  rw [form_A_eval, form_A_eval, Iten_comm m n]; ring

theorem form_D_swap12 (TAU SIGMA : ℚ) (k l m n : Fin 3) :
    form_D TAU SIGMA (T2V4 k l m n) = form_D TAU SIGMA (T2V4 l k m n) := by
  rw [form_D_eval, form_D_eval, Iten_comm k l]; ring

theorem form_D_swap34 (TAU SIGMA : ℚ) (k l m n : Fin 3) :
    form_D TAU SIGMA (T2V4 k l m n) = form_D TAU SIGMA (T2V4 k l n m) := by
  rw [form_D_eval, form_D_eval, Iten_comm m n]; ring

theorem form_C_legswap (TAUS : Fin 11 → ℚ) (k l m n p q : Fin 3) :
    form_C TAUS (T2V6 k l m n p q) = form_C TAUS (T2V6 n p q k l m) := by
  have h : ∀ a b : Fin 3, Iten a b = Iten b a := Iten_comm
  rw [form_C_eval, form_C_eval,
    h q k, h n m, h q l, h q m, h n k, h p k, h n l, h p l, h p m]
  ring

theorem T2V2_val (i j : Fin 3) : (T2V2 i j).val = 3 * i.val + j.val := rfl

/-- `invert_3x3_matrix_V` really inverts: row `i` of `C` against column `j` of
the returned matrix contracts to the Kronecker delta whenever `det3 C ≠ 0`. -/
theorem mul_inv_entries (C : Fin 9 → ℚ) (h : det3 C ≠ 0) :
    ∀ i j : Fin 3,
      (∑ k : Fin 3, C (T2V2 i k) * (invert_3x3_matrix_V C).2 (T2V2 k j)) = Iten i j := by
  have e00 : (∑ k : Fin 3, C (T2V2 0 k) * (invert_3x3_matrix_V C).2 (T2V2 k 0)) = Iten 0 0 := by
    norm_num [Fin.sum_univ_three, invert_3x3_matrix_V, adj3, T2V2_val, Iten]
    field_simp; rw [det3]; ring
  have e01 : (∑ k : Fin 3, C (T2V2 0 k) * (invert_3x3_matrix_V C).2 (T2V2 k 1)) = Iten 0 1 := by
    norm_num [Fin.sum_univ_three, invert_3x3_matrix_V, adj3, T2V2_val, Iten, Fin.ext_iff]
    field_simp; ring
  have e02 : (∑ k : Fin 3, C (T2V2 0 k) * (invert_3x3_matrix_V C).2 (T2V2 k 2)) = Iten 0 2 := by
    norm_num [Fin.sum_univ_three, invert_3x3_matrix_V, adj3, T2V2_val, Iten, Fin.ext_iff,
      fin3_val_two]
    field_simp; ring
  have e10 : (∑ k : Fin 3, C (T2V2 1 k) * (invert_3x3_matrix_V C).2 (T2V2 k 0)) = Iten 1 0 := by
    norm_num [Fin.sum_univ_three, invert_3x3_matrix_V, adj3, T2V2_val, Iten, Fin.ext_iff]
    field_simp; ring
  have e11 : (∑ k : Fin 3, C (T2V2 1 k) * (invert_3x3_matrix_V C).2 (T2V2 k 1)) = Iten 1 1 := by
    norm_num [Fin.sum_univ_three, invert_3x3_matrix_V, adj3, T2V2_val, Iten]
    field_simp; rw [det3]; ring
  have e12 : (∑ k : Fin 3, C (T2V2 1 k) * (invert_3x3_matrix_V C).2 (T2V2 k 2)) = Iten 1 2 := by
    norm_num [Fin.sum_univ_three, invert_3x3_matrix_V, adj3, T2V2_val, Iten, Fin.ext_iff,
      fin3_val_two]
    field_simp; ring
  have e20 : (∑ k : Fin 3, C (T2V2 2 k) * (invert_3x3_matrix_V C).2 (T2V2 k 0)) = Iten 2 0 := by
    norm_num [Fin.sum_univ_three, invert_3x3_matrix_V, adj3, T2V2_val, Iten, Fin.ext_iff,
      fin3_val_two]
    field_simp; ring
  have e21 : (∑ k : Fin 3, C (T2V2 2 k) * (invert_3x3_matrix_V C).2 (T2V2 k 1)) = Iten 2 1 := by
    norm_num [Fin.sum_univ_three, invert_3x3_matrix_V, adj3, T2V2_val, Iten, Fin.ext_iff,
      fin3_val_two]
    field_simp; ring
  have e22 : (∑ k : Fin 3, C (T2V2 2 k) * (invert_3x3_matrix_V C).2 (T2V2 k 2)) = Iten 2 2 := by
    norm_num [Fin.sum_univ_three, invert_3x3_matrix_V, adj3, T2V2_val, Iten, Fin.ext_iff,
      fin3_val_two]
    field_simp; rw [det3]; ring
  intro i j
  fin_cases i <;> fin_cases j
  · exact e00
  · exact e01
  · exact e02
  · exact e10
  · exact e11
  · exact e12
  · exact e20
  · exact e21
  · exact e22

/-- C1: for invertible `C`, `compute_pk2_stress` returns
`PK2 = TERM1 + TERM2` where `TERM1` and `TERM2` have exactly the component
sums of the spec (with `Cinv` the inverse of `C`); `TERM1` and `TERM2` are
also returned. -/
theorem compute_pk2_stress_correct (AFOT BFOT : Fin 81 → ℚ) (CFOT : Fin 729 → ℚ)
    (DFOT : Fin 81 → ℚ) ( E_mac E_mic C : Fin 9 → ℚ) (Gamma : Fin 27 → ℚ)
    (h : det3 C ≠ 0) :
    (∀ i j : Fin 3,
      (∑ k : Fin 3, C (T2V2 i k) * (invert_3x3_matrix_V C).2 (T2V2 k j)) = Iten i j)
    ∧ ∀ i j : Fin 3,
      (compute_pk2_stress AFOT BFOT CFOT DFOT E_mac E_mic C Gamma).2.1 (T2V2 i j)
        = (∑ k : Fin 3, ∑ l : Fin 3,
            (AFOT (T2V4 i j k l) * E_mac (T2V2 k l) + DFOT (T2V4 i j k l) * E_mic (T2V2 k l)))
      ∧ (compute_pk2_stress AFOT BFOT CFOT DFOT E_mac E_mic C Gamma).2.2 (T2V2 i j)
          = (∑ k : Fin 3, ∑ l : Fin 3, ∑ q : Fin 3, ∑ r : Fin 3,
              (BFOT (T2V4 i q k l) * E_mic (T2V2 k l) + DFOT (T2V4 i q k l) * E_mac (T2V2 k l))
                * (E_mic (T2V2 r q) + Iten r q) * (invert_3x3_matrix_V C).2 (T2V2 j r))
            + (∑ l : Fin 3, ∑ m : Fin 3, ∑ n : Fin 3, ∑ q : Fin 3, ∑ r : Fin 3, ∑ s : Fin 3,
              CFOT (T2V6 i q r l m n) * Gamma (T2V3 l m n)
                * (invert_3x3_matrix_V C).2 (T2V2 j s) * Gamma (T2V3 s q r))
      ∧ (compute_pk2_stress AFOT BFOT CFOT DFOT E_mac E_mic C Gamma).1 (T2V2 i j)
          = (compute_pk2_stress AFOT BFOT CFOT DFOT E_mac E_mic C Gamma).2.1 (T2V2 i j)
            + (compute_pk2_stress AFOT BFOT CFOT DFOT E_mac E_mic C Gamma).2.2 (T2V2 i j) := by
  refine ⟨mul_inv_entries C h, fun i j => ⟨?_, ?_, ?_⟩⟩ <;>
    simp [compute_pk2_stress, V2T2_T2V2, idV_T2V2]

/-- Witness for C1 at `C = I` (so `det3 C = 1 ≠ 0`) and zero tensors. -/
theorem compute_pk2_stress_correct_witness :
    det3 idV ≠ 0
    ∧ (compute_pk2_stress (fun _ => 0) (fun _ => 0) (fun _ => 0) (fun _ => 0)
          (fun _ => 0) (fun _ => 0) idV (fun _ => 0)).1 (T2V2 0 0)
        = (compute_pk2_stress (fun _ => 0) (fun _ => 0) (fun _ => 0) (fun _ => 0)
          (fun _ => 0) (fun _ => 0) idV (fun _ => 0)).2.1 (T2V2 0 0)
          + (compute_pk2_stress (fun _ => 0) (fun _ => 0) (fun _ => 0) (fun _ => 0)
          (fun _ => 0) (fun _ => 0) idV (fun _ => 0)).2.2 (T2V2 0 0) :=
  ⟨by norm_num [det3, idV_T2V2, Iten, Fin.ext_iff, fin3_val_two],
   ((compute_pk2_stress_correct (fun _ => 0) (fun _ => 0) (fun _ => 0) (fun _ => 0)
      (fun _ => 0) (fun _ => 0) idV (fun _ => 0)
      (by norm_num [det3, idV_T2V2, Iten, Fin.ext_iff, fin3_val_two])).2 0 0).2.2⟩

/-- C2: for every material-parameter set and every deformation triple with
invertible `C`, the symmetric stress of the pipeline (stiffness tensors,
strain measures, `compute_pk2_stress`, `compute_symmetric_stress` on the
returned `TERM1`, `TERM2`) is symmetric and equals
`TERM1[i,j] + TERM2[i,j] + TERM2[j,i]`. -/
theorem sigma_pipeline_symmetric
    (LAMBDA MU ETA TAU KAPPA NU SIGMA : ℚ) (TAUS : Fin 11 → ℚ)
    (C Phi : Fin 9 → ℚ) (Gamma : Fin 27 → ℚ) (h : det3 C ≠ 0) (i j : Fin 3) :
    sigma_pipeline (LAMBDA, MU, ETA, TAU, KAPPA, NU, SIGMA, TAUS) C Phi Gamma (T2V2 i j)
      = sigma_pipeline (LAMBDA, MU, ETA, TAU, KAPPA, NU, SIGMA, TAUS) C Phi Gamma (T2V2 j i)
    ∧ sigma_pipeline (LAMBDA, MU, ETA, TAU, KAPPA, NU, SIGMA, TAUS) C Phi Gamma (T2V2 i j)
      = (pk2_pipeline (LAMBDA, MU, ETA, TAU, KAPPA, NU, SIGMA, TAUS) C Phi Gamma).2.1 (T2V2 i j)
        + (pk2_pipeline (LAMBDA, MU, ETA, TAU, KAPPA, NU, SIGMA, TAUS) C Phi Gamma).2.2 (T2V2 i j)
        + (pk2_pipeline (LAMBDA, MU, ETA, TAU, KAPPA, NU, SIGMA, TAUS) C Phi Gamma).2.2 (T2V2 j i) := by
  have hdec : ∀ a b : Fin 3, T2V2 (V2T2 (T2V2 a b)).2 (V2T2 (T2V2 a b)).1 = T2V2 b a := by
    intro a b; rw [V2T2_T2V2]
  have hT1 : ∀ a b : Fin 3,
      (pk2_pipeline (LAMBDA, MU, ETA, TAU, KAPPA, NU, SIGMA, TAUS) C Phi Gamma).2.1 (T2V2 a b)
        = (pk2_pipeline (LAMBDA, MU, ETA, TAU, KAPPA, NU, SIGMA, TAUS) C Phi Gamma).2.1 (T2V2 b a) := by
    intro a b
    simp only [pk2_pipeline, form_stiffness_tensors, compute_pk2_stress, V2T2_T2V2]
    refine Finset.sum_congr rfl fun k _ => Finset.sum_congr rfl fun l _ => ?_
    rw [form_A_swap12, form_D_swap12]
  constructor
  · simp only [sigma_pipeline, compute_symmetric_stress, get_symm_matrix_V, hdec]
    rw [hT1 i j]
    ring
  · simp only [sigma_pipeline, compute_symmetric_stress, get_symm_matrix_V, hdec]
    ring

/-- Witness for C2 at zero material parameters, `C = Phi = I`, `Gamma = 0`. -/
theorem sigma_pipeline_symmetric_witness :
    det3 idV ≠ 0
    ∧ sigma_pipeline (0, 0, 0, 0, 0, 0, 0, fun _ => 0) idV idV (fun _ => 0) (T2V2 0 1)
        = sigma_pipeline (0, 0, 0, 0, 0, 0, 0, fun _ => 0) idV idV (fun _ => 0) (T2V2 1 0) :=
  ⟨by norm_num [det3, idV_T2V2, Iten, Fin.ext_iff, fin3_val_two],
   (sigma_pipeline_symmetric 0 0 0 0 0 0 0 (fun _ => 0) idV idV (fun _ => 0)
      (by norm_num [det3, idV_T2V2, Iten, Fin.ext_iff, fin3_val_two]) 0 1).1⟩

/-- C5: identity deformation (`C = Phi = I` flattened, `Gamma = 0`) gives zero
strain measures, zero `PK2`, zero symmetric stress and zero higher-order
stress, for every material-parameter set. -/
theorem identity_deformation_zero_stress
    (LAMBDA MU ETA TAU KAPPA NU SIGMA : ℚ) (TAUS : Fin 11 → ℚ) :
    (∀ v : Fin 9, (compute_strain_measures idV idV).1 v = 0)
    ∧ (∀ v : Fin 9, (compute_strain_measures idV idV).2 v = 0)
    ∧ (∀ v : Fin 9,
        (pk2_pipeline (LAMBDA, MU, ETA, TAU, KAPPA, NU, SIGMA, TAUS) idV idV
          (fun _ => 0)).1 v = 0)
    ∧ (∀ v : Fin 9,
        sigma_pipeline (LAMBDA, MU, ETA, TAU, KAPPA, NU, SIGMA, TAUS) idV idV
          (fun _ => 0) v = 0)
    ∧ (∀ w : Fin 27,
        compute_ho_stress (form_stiffness_tensors
          (LAMBDA, MU, ETA, TAU, KAPPA, NU, SIGMA, TAUS)).2.2.1 (fun _ => 0) w = 0) := by
  have hE1 : ∀ v : Fin 9, (compute_strain_measures idV idV).1 v = 0 := by
    intro v; simp [compute_strain_measures, idV_decode]
  have hE2 : ∀ v : Fin 9, (compute_strain_measures idV idV).2 v = 0 := by
    intro v; simp [compute_strain_measures, idV_decode]
  have hT1 : ∀ v : Fin 9,
      (pk2_pipeline (LAMBDA, MU, ETA, TAU, KAPPA, NU, SIGMA, TAUS) idV idV
        (fun _ => 0)).2.1 v = 0 := by
    intro v
    simp only [pk2_pipeline, form_stiffness_tensors, compute_pk2_stress]
    simp [V2T2, hE1, hE2]
  have hT2 : ∀ v : Fin 9,
      (pk2_pipeline (LAMBDA, MU, ETA, TAU, KAPPA, NU, SIGMA, TAUS) idV idV
        (fun _ => 0)).2.2 v = 0 := by
    intro v
    simp only [pk2_pipeline, form_stiffness_tensors, compute_pk2_stress]
    simp [V2T2, hE1, hE2]
  refine ⟨hE1, hE2, ?_, ?_, ?_⟩
  · intro v
    simp only [pk2_pipeline, form_stiffness_tensors, compute_pk2_stress]
    simp [V2T2, hE1, hE2]
  · intro v
    simp only [sigma_pipeline, compute_symmetric_stress, get_symm_matrix_V]
    rw [hT1, hT2, hT2]
    norm_num
  · intro w
    simp [compute_ho_stress]

/-- C6 (amended: `B` dropped — its minor symmetries fail for `KAPPA ≠ NU`):
for all scalar parameters and indices, `form_A` and `form_D` have both minor
symmetries, and `form_C` is symmetric under the swap of its two index-triple
legs, `C6[k,l,m,n,p,q] = C6[n,p,q,k,l,m]`. -/
theorem stiffness_tensor_symmetries (LAMBDA MU TAU SIGMA : ℚ) (TAUS : Fin 11 → ℚ)
    (k l m n p q : Fin 3) :
    (form_A LAMBDA MU (T2V4 k l m n) = form_A LAMBDA MU (T2V4 l k m n)
      ∧ form_A LAMBDA MU (T2V4 k l m n) = form_A LAMBDA MU (T2V4 k l n m))
    ∧ (form_D TAU SIGMA (T2V4 k l m n) = form_D TAU SIGMA (T2V4 l k m n)
      ∧ form_D TAU SIGMA (T2V4 k l m n) = form_D TAU SIGMA (T2V4 k l n m))
    ∧ form_C TAUS (T2V6 k l m n p q) = form_C TAUS (T2V6 n p q k l m) :=
  ⟨⟨form_A_swap12 _ _ _ _ _ _, form_A_swap34 _ _ _ _ _ _⟩,
   ⟨form_D_swap12 _ _ _ _ _ _, form_D_swap34 _ _ _ _ _ _⟩,
   form_C_legswap _ _ _ _ _ _ _⟩

/-- C6 counterexample: with `ETA = TAU = NU = SIGMA = 0` and `KAPPA = 1`,
`form_B` violates both minor symmetries at indices `(0,1,0,1)`:
`B[0,1,0,1] = 1` but `B[1,0,0,1] = 0` and `B[0,1,1,0] = 0`. -/
theorem form_B_minor_symmetry_fails :
    form_B 0 0 1 0 0 (T2V4 0 1 0 1) ≠ form_B 0 0 1 0 0 (T2V4 1 0 0 1)
    ∧ form_B 0 0 1 0 0 (T2V4 0 1 0 1) ≠ form_B 0 0 1 0 0 (T2V4 0 1 1 0) := by
  constructor <;> (simp only [form_B_eval]; norm_num [Iten, Fin.ext_iff, fin3_val_two])

/-- C8: `compute_dCinvdC` returns `dCinvdC[I,J,K,L] = -Cinv[I,K]*Cinv[L,J]`,
computed from the already-inverted `Cinv` alone (it is the only argument, so no
further inversion of `C` can occur). -/
theorem compute_dCinvdC_correct (Cinv : Fin 9 → ℚ) (I J K L : Fin 3) :
    compute_dCinvdC Cinv (T2V4 I J K L) = -(Cinv (T2V2 I K) * Cinv (T2V2 L J)) := by
  simp only [compute_dCinvdC, V2T4_T2V4]; ring

/-- C9: with `LAMBDA = 2.4`, `MU = 6.7`, `form_A` is the closed-form isotropic
tensor: `A[0,0,0,0] = 15.8`, `A[0,1,0,1] = A[0,1,1,0] = 6.7`, and every
component whose indices match no Kronecker-delta pattern of the formula is 0. -/
theorem form_A_isotropic_closed_form :
    form_A 2.4 6.7 (T2V4 0 0 0 0) = 15.8
    ∧ form_A 2.4 6.7 (T2V4 0 1 0 1) = 6.7
    ∧ form_A 2.4 6.7 (T2V4 0 1 1 0) = 6.7
    ∧ ∀ k l m n : Fin 3, ¬(k = l ∧ m = n) → ¬(k = m ∧ l = n) → ¬(k = n ∧ l = m) →
        form_A 2.4 6.7 (T2V4 k l m n) = 0 := by
  refine ⟨?_, ?_, ?_, ?_⟩
  · simp only [form_A_eval]; norm_num [Iten, Fin.ext_iff, fin3_val_two]
  · simp only [form_A_eval]; norm_num [Iten, Fin.ext_iff, fin3_val_two]
  · simp only [form_A_eval]; norm_num [Iten, Fin.ext_iff, fin3_val_two]
  · intro k l m n h1 h2 h3
    rw [form_A_eval]
    linear_combination (2.4 : ℚ) * Iten_prod_zero h1 + 6.7 * Iten_prod_zero h2
      + 6.7 * Iten_prod_zero h3

/-- Witness for C9: indices `(0,0,0,1)` match no delta pattern and the
component vanishes there. -/
theorem form_A_isotropic_closed_form_witness :
    ¬((0 : Fin 3) = (0 : Fin 3) ∧ (0 : Fin 3) = (1 : Fin 3))
    ∧ form_A 2.4 6.7 (T2V4 0 0 0 1) = 0 :=
  ⟨by decide, form_A_isotropic_closed_form.2.2.2 0 0 0 1 (by decide) (by decide) (by decide)⟩

/-- C7 (amended: `compute_strain_measures` is affine, not linear — subtracting
the identity breaks homogeneity; superposition holds exactly for affine
combinations `a + b = 1`). -/
theorem compute_strain_measures_affine (a b : ℚ) (C1 C2 Phi1 Phi2 : Fin 9 → ℚ)
    (h : a + b = 1) (v : Fin 9) :
    (compute_strain_measures (fun w => a * C1 w + b * C2 w)
        (fun w => a * Phi1 w + b * Phi2 w)).1 v
      = a * (compute_strain_measures C1 Phi1).1 v + b * (compute_strain_measures C2 Phi2).1 v
    ∧ (compute_strain_measures (fun w => a * C1 w + b * C2 w)
        (fun w => a * Phi1 w + b * Phi2 w)).2 v
      = a * (compute_strain_measures C1 Phi1).2 v
        + b * (compute_strain_measures C2 Phi2).2 v := by
  have hb : b = 1 - a := by linarith
  subst hb
  constructor <;> (simp only [compute_strain_measures]; ring)

/-- Witness for C7 (amended): the affine combination with `a = b = 1/2`. -/
theorem compute_strain_measures_affine_witness :
    (0.5 : ℚ) + 0.5 = 1
    ∧ (compute_strain_measures (fun w => 0.5 * idV w + 0.5 * idV w)
          (fun w => 0.5 * idV w + 0.5 * idV w)).1 0
        = 0.5 * (compute_strain_measures idV idV).1 0
          + 0.5 * (compute_strain_measures idV idV).1 0 :=
  ⟨by norm_num,
   (compute_strain_measures_affine 0.5 0.5 idV idV idV idV (by norm_num) 0).1⟩

/-- C7 counterexample: superposition with `a = b = 1` fails — at `C1 = C2 =
Phi1 = Phi2 = I` the strain of the sum is `0.5*(2 - 1) = 0.5` at slot `(0,0)`
while the sum of the strains is `0`. -/
theorem compute_strain_measures_not_linear :
    (compute_strain_measures (fun w => 1 * idV w + 1 * idV w)
        (fun w => 1 * idV w + 1 * idV w)).1 (T2V2 0 0)
      ≠ 1 * (compute_strain_measures idV idV).1 (T2V2 0 0)
        + 1 * (compute_strain_measures idV idV).1 (T2V2 0 0) := by
  simp only [compute_strain_measures, V2T2_T2V2, idV_T2V2]
  norm_num [Iten]

/-!
Dynamic layer.  The tangent functions (lines 209-318) and the top-level entry
point (lines 323-331) are broken at run time: they index flat 1-D arrays with
4-, 5- and 6-tuple subscripts, reference undefined names, and rebind
arguments.  To settle the claims about them we model Python run-time
behaviour explicitly: values a function receives are `PyObj`s, reads and
writes are `Except`-valued, and statements execute in source order so that
the first failing operation aborts the call, exactly as a raised exception
does. -/

/-- A value read out of a `PyObj`: either a scalar or (from the `(det, Minv)`
tuple) a whole matrix. -/
inductive NpElem where
  | rat : ℚ → NpElem
  | mat : (Fin 9 → ℚ) → NpElem

/-- A Python object as passed around by the tangent code: a flat 1-D numpy
array of length `n`, a 3x3 2-D array (`np.eye(3)`), or the `(det, Minv)` pair
returned by `hex8.invert_3x3_matrix`. -/
inductive PyObj where
  | arr : (n : ℕ) → (Fin n → ℚ) → PyObj
  | mat3 : (Fin 3 → Fin 3 → ℚ) → PyObj
  | tup : ℚ → (Fin 9 → ℚ) → PyObj

/-- Subscripting a `PyObj` with a tuple of integer indices, with numpy/Python
error behaviour: a 1-D array accepts exactly one index (more raise
`IndexError: too many indices`), a 2-tuple accepts 0 or 1.  The 2-D case is
never reached by the modelled code (the `I = np.eye(3)` argument is shadowed
by a loop counter before any use). -/
def pyGet (x : PyObj) (idx : List ℕ) : Except String NpElem :=
  match x, idx with
  | .arr n v, [i] =>
    if h : i < n then .ok (.rat (v ⟨i, h⟩))
    else .error "IndexError: index out of bounds"
  | .arr _ _, _ => .error "IndexError: too many indices for array"
  | .mat3 _, _ => .error "TypeError: unreached 2-D indexing"
  | .tup d _, [0] => .ok (.rat d)
  | .tup _ m, [1] => .ok (.mat m)
  | .tup _ _, [_] => .error "IndexError: tuple index out of range"
  | .tup _ _, _ => .error "TypeError: tuple indices must be integers"

/-- Using a read value as a scalar; storing a non-scalar into a scalar slot is
numpy`s `ValueError: setting an array element with a sequence`. -/
def toScalar : NpElem → Except String ℚ
  | .rat x => .ok x
  | .mat _ => .error "ValueError: setting an array element with a sequence"

/-- Bounds-checked store into a flat 1-D array. -/
def set1 {n : ℕ} (a : Fin n → ℚ) (i : ℕ) (x : ℚ) : Except String (Fin n → ℚ) :=
  if _h : i < n then .ok (fun v => if v.val = i then x else a v)
  else .error "IndexError: index out of bounds"

/-- Order-4 cubic tensor of side 3 (`np.zeros([3,3,3,3])`). -/
def Ten4 : Type := Fin 3 → Fin 3 → Fin 3 → Fin 3 → ℚ

/-- Order-4 tensor of side 4 (`np.zeros([4,4,4,4])`, as in
`compute_stress_derivatives_wrt_Phi`). -/
def Ten4b : Type := Fin 4 → Fin 4 → Fin 4 → Fin 4 → ℚ

/-- Order-5 cubic tensor of side 3 (`np.zeros([3,3,3,3,3])`). -/
def Ten5 : Type := Fin 3 → Fin 3 → Fin 3 → Fin 3 → Fin 3 → ℚ

/-- Bounds-checked read of a 4-D array with integer indices. -/
def getT4 {n : ℕ} (a : Fin n → Fin n → Fin n → Fin n → ℚ) (i j o p : ℕ) :
    Except String ℚ :=
  if h : i < n ∧ j < n ∧ o < n ∧ p < n then
    .ok (a ⟨i, h.1⟩ ⟨j, h.2.1⟩ ⟨o, h.2.2.1⟩ ⟨p, h.2.2.2⟩)
  else .error "IndexError: index out of bounds"

/-- Bounds-checked store into a 4-D array with integer indices. -/
def setT4 {n : ℕ} (a : Fin n → Fin n → Fin n → Fin n → ℚ) (i j o p : ℕ) (x : ℚ) :
    Except String (Fin n → Fin n → Fin n → Fin n → ℚ) :=
  if _h : i < n ∧ j < n ∧ o < n ∧ p < n then
    .ok (fun a1 a2 a3 a4 =>
      if a1.val = i ∧ a2.val = j ∧ a3.val = o ∧ a4.val = p then x else a a1 a2 a3 a4)
  else .error "IndexError: index out of bounds"

/-- Bounds-checked read of a 5-D array with integer indices. -/
def getT5 (a : Ten5) (i j o p q : ℕ) : Except String ℚ :=
  if h : i < 3 ∧ j < 3 ∧ o < 3 ∧ p < 3 ∧ q < 3 then
    .ok (a ⟨i, h.1⟩ ⟨j, h.2.1⟩ ⟨o, h.2.2.1⟩ ⟨p, h.2.2.2.1⟩ ⟨q, h.2.2.2.2⟩)
  else .error "IndexError: index out of bounds"

/-- Bounds-checked store into a 5-D array with integer indices. -/
def setT5 (a : Ten5) (i j o p q : ℕ) (x : ℚ) : Except String Ten5 :=
  if _h : i < 3 ∧ j < 3 ∧ o < 3 ∧ p < 3 ∧ q < 3 then
    .ok (fun a1 a2 a3 a4 a5 =>
      if a1.val = i ∧ a2.val = j ∧ a3.val = o ∧ a4.val = p ∧ a5.val = q then x
      else a a1 a2 a3 a4 a5)
  else .error "IndexError: index out of bounds"

/-- Reading a name that is defined neither locally nor at module level. -/
def undefinedName (n : String) : Except String ℚ :=
  .error ("NameError: name " ++ n ++ " is not defined")

/-- Subscripting the integer loop counter `I` (which shadows the
identity-tensor argument) as in `I[R,Q]`. -/
def intSubscript : Except String ℚ :=
  .error "TypeError: int object is not subscriptable"

/-- `range(3)` of the Python loops. -/
def rng3 : List ℕ := [0, 1, 2]

/-- The iteration sequence of two nested `for ... in range(3)` loops. -/
def idx2 : List (ℕ × ℕ) := rng3.flatMap fun a => rng3.map fun b => (a, b)

/-- Three nested loops. -/
def idx3 : List (ℕ × ℕ × ℕ) := rng3.flatMap fun a => idx2.map fun t => (a, t.1, t.2)

/-- Four nested loops. -/
def idx4 : List (ℕ × ℕ × ℕ × ℕ) :=
  rng3.flatMap fun a => idx3.map fun t => (a, t.1, t.2.1, t.2.2)

/-- Five nested loops. -/
def idx5 : List (ℕ × ℕ × ℕ × ℕ × ℕ) :=
  rng3.flatMap fun a => idx4.map fun t => (a, t.1, t.2.1, t.2.2.1, t.2.2.2)

/-- Run-time model of `compute_dCinvdC` (lines 44-55) as executed on an
arbitrary Python object (in `compute_tangents` it receives the whole
`(det, Minv)` pair, not a flat matrix): the `I,J,K,L` loops run in order,
reading `Cinv[IK]` and `Cinv[LJ]` and storing `-Cinv[IK]*Cinv[LJ]` at flat slot
`T2V([I,J,K,L])` of the length-81 result. -/
def compute_dCinvdC_dyn (Cinv : PyObj) : Except String (Fin 81 → ℚ) :=
  idx4.foldlM (fun acc t =>
    match t with
    | (i, j, k, l) => do
      let e1 ← pyGet Cinv [3 * i + k]
      let e2 ← pyGet Cinv [3 * l + j]
      let x1 ← toScalar e1
      let x2 ← toScalar e2
      set1 acc (27 * i + 9 * j + 3 * k + l) (-x1 * x2))
    (fun _ => 0)

/-- Run-time model of `compute_stress_derivatives_wrt_C` (lines 227-265).
Statements execute in source order: the zero initializations, the recomputation
`dCinvdC = compute_dCinvdC(Cinv)` of line 240, then the `I,J,O,P` loop nest
whose first statement is `TERM1[I,J,O,P] = AFOT[I,J,O,P]` (line 247); the
loop counter `I` shadows the identity-tensor argument, so `I[R,Q]` subscripts
an integer, and `Gamma` and `S` (line 260) are undefined names. -/
def compute_stress_derivatives_wrt_C
    ( E_mac E_mic AFOT BFOT CFOT DFOT Cinv Ipar dCinvdC : PyObj) :
    Except String (Ten4 × Ten4 × Ten5) := do
  let dMdC : Ten5 := fun _ _ _ _ _ => 0
  let dC2 ← compute_dCinvdC_dyn Cinv
  let st ← idx4.foldlM (fun st t =>
    match st, t with
    | (t1, t2, ds, dsg), (i, j, o, p) => do
      let v1 ← pyGet AFOT [i, j, o, p] >>= toScalar
      let t1a ← setT4 t1 i j o p v1
      let inner ← idx2.foldlM (fun s qr =>
        match s, qr with
        | (u1, u2), (q, r) => do
          let d1 ← pyGet DFOT [i, q, o, p] >>= toScalar
          let em ← pyGet E_mic [r, q] >>= toScalar
          let ii ← intSubscript
          let cv ← pyGet Cinv [j, r] >>= toScalar
          let cur ← getT4 u1 i j o p
          let u1b ← setT4 u1 i j o p (cur + d1 * (em + ii) * cv)
          let u2b ← idx2.foldlM (fun u2 kl =>
            match kl with
            | (k, l) => do
              let b1 ← pyGet BFOT [i, q, k, l] >>= toScalar
              let e1 ← pyGet E_mic [k, l] >>= toScalar
              let d2 ← pyGet DFOT [i, q, k, l] >>= toScalar
              let e2 ← pyGet E_mac [k, l] >>= toScalar
              let e3 ← pyGet E_mic [r, q] >>= toScalar
              let ii2 ← intSubscript
              let dv ← pyGet (.arr 81 dC2) [j, r, o, p] >>= toScalar
              let cur2 ← getT4 u2 i j o p
              setT4 u2 i j o p (cur2 + (b1 * e1 + d2 * e2) * (e3 + ii2) * dv)) u2
          let u2c ← idx3.foldlM (fun u2 lmn =>
            match lmn with
            | (l, m, n) => do
              let c1 ← pyGet CFOT [i, q, r, l, m, n] >>= toScalar
              let g1 ← undefinedName "Gamma"
              let g2 ← undefinedName "Gamma"
              -- the subscript of dCinvdC[J,S,O,P] cannot even be formed: S
              -- is undefined, so its resolution stands in for the read
              let sv ← undefinedName "S"
              let cur3 ← getT4 u2 i j o p
              setT4 u2 i j o p (cur3 + c1 * g1 * g2 * sv)) u2b
          pure (u1b, u2c)) (t1a, t2)
      let a1 ← getT4 inner.1 i j o p
      let a2 ← getT4 inner.2 i j o p
      let a3 ← getT4 inner.2 j i o p
      let dsb ← setT4 ds i j o p (a1 + a2)
      let dsgb ← setT4 dsg i j o p (a1 + (a2 + a3))
      pure (inner.1, inner.2, dsb, dsgb))
    ((fun _ _ _ _ => 0 : Ten4), (fun _ _ _ _ => 0 : Ten4),
     (fun _ _ _ _ => 0 : Ten4), (fun _ _ _ _ => 0 : Ten4))
  pure (st.2.2.1, st.2.2.2, dMdC)

/-- Run-time model of `compute_stress_derivatives_wrt_Phi` (lines 267-297).
The first loop statement is `dSdPhi[I,J,O,P] = DFOT[I,J,O,P]` (line 283); the
`TERM` scratch arrays have shape `[4,4,4,4]` as in the source. -/
def compute_stress_derivatives_wrt_Phi
    ( E_mac E_mic AFOT BFOT CFOT DFOT Cinv Ipar : PyObj) :
    Except String (Ten4 × Ten4 × Ten5) := do
  let dMdPhi : Ten5 := fun _ _ _ _ _ => 0
  let _TERM1 : Ten4b := fun _ _ _ _ => 0
  let st ← idx4.foldlM (fun st t =>
    match st, t with
    | (dsp, dsgp, t2), (i, j, o, p) => do
      let v1 ← pyGet DFOT [i, j, o, p] >>= toScalar
      let dspa ← setT4 dsp i j o p v1
      let v2 ← pyGet DFOT [i, j, o, p] >>= toScalar
      let dsgpa ← setT4 dsgp i j o p v2
      let t2b ← idx2.foldlM (fun t2 qr =>
        match qr with
        | (q, r) => do
          let b1 ← pyGet BFOT [i, q, o, p] >>= toScalar
          let e1 ← pyGet E_mic [r, q] >>= toScalar
          let ii ← intSubscript
          let cv ← pyGet Cinv [j, r] >>= toScalar
          let cur ← getT4 t2 i j o p
          let t2a ← setT4 t2 i j o p (cur + b1 * (e1 + ii) * cv)
          idx2.foldlM (fun t2 kl =>
            match kl with
            | (k, l) => do
              let b2 ← pyGet BFOT [i, p, k, l] >>= toScalar
              let e2 ← pyGet E_mic [k, l] >>= toScalar
              let d2 ← pyGet DFOT [i, p, k, l] >>= toScalar
              let e3 ← pyGet E_mac [k, l] >>= toScalar
              let cv2 ← pyGet Cinv [j, o] >>= toScalar
              let cur2 ← getT4 t2 i j o p
              setT4 t2 i j o p (cur2 + (b2 * e2 + d2 * e3) * cv2)) t2a) t2
      let a2 ← getT4 t2b i j o p
      let a3 ← getT4 t2b j i o p
      let c1 ← getT4 dspa i j o p
      let dspb ← setT4 dspa i j o p (c1 + a2)
      let c2 ← getT4 dsgpa i j o p
      let dsgpb ← setT4 dsgpa i j o p (c2 + (a2 + a3))
      pure (dspb, dsgpb, t2b))
    ((fun _ _ _ _ => 0 : Ten4), (fun _ _ _ _ => 0 : Ten4), (fun _ _ _ _ => 0 : Ten4b))
  pure (st.1, st.2.1, dMdPhi)

/-- Run-time model of `compute_stress_derivatives_wrt_Gamma` (lines 299-318).
Line 315 subscripts the flat `CFOT` with the 5-tuple `[I,Q,R,T,U]` (note the
trailing comma in the source) and references the undefined `Gamma` and `S`;
on success the function would return `CFOT` itself as `dMdGamma` (line 318). -/
def compute_stress_derivatives_wrt_Gamma
    ( E_mac E_mic AFOT BFOT CFOT DFOT Cinv Ipar : PyObj) :
    Except String (Ten5 × Ten5 × PyObj) := do
  let _TERM : Ten5 := fun _ _ _ _ _ => 0
  let st ← idx5.foldlM (fun st t =>
    match st, t with
    | (dsg, dsgg), (i, j, tt, u, vv) => do
      let dsgb ← idx3.foldlM (fun dsg sqr =>
        match sqr with
        | (s, q, r) => do
          let c1 ← pyGet CFOT [i, q, r, tt, u] >>= toScalar
          let cv1 ← pyGet Cinv [j, s] >>= toScalar
          let g1 ← undefinedName "Gamma"
          -- CFOT[I,U,V,S,Q,R]: the subscript contains the undefined S
          let c2 ← undefinedName "S"
          let g2 ← undefinedName "Gamma"
          let cv2 ← pyGet Cinv [j, tt] >>= toScalar
          let cur ← getT5 dsg i j tt u vv
          setT5 dsg i j tt u vv (cur + c1 * cv1 * g1 + c2 * g2 * cv2)) dsg
      let a1 ← getT5 dsgb i j tt u vv
      let a2 ← getT5 dsgb j i tt u vv
      let dsggb ← setT5 dsgg i j tt u vv (a1 + a2)
      pure (dsgb, dsggb))
    ((fun _ _ _ _ _ => 0 : Ten5), (fun _ _ _ _ _ => 0 : Ten5))
  pure (st.1, st.2, CFOT)

/-- Run-time model of `compute_tangents` (lines 209-225).  Line 215 calls
`hex8.invert_3x3_matrix`, modelled from the spec interface
`invert(M) -> (det, Minv)` (spec 6), so `Cinv` is bound to the whole pair; line
218 then hands that pair to `compute_dCinvdC`, and lines 221-223 would hand it
to the three sub-builders. -/
def compute_tangents (AFOT BFOT CFOT DFOT E_mac E_mic : PyObj) (C : Fin 9 → ℚ)
    (Gamma : PyObj) :
    Except String (Ten4 × Ten4 × Ten5 × Ten4 × Ten4 × Ten5 × Ten5 × Ten5 × PyObj) := do
  let Ipar : PyObj := .mat3 Iten
  let Cinv := invert_3x3_matrix_V C
  let dCinvdC ← compute_dCinvdC_dyn (.tup Cinv.1 Cinv.2)
  let r1 ← compute_stress_derivatives_wrt_C E_mac E_mic AFOT BFOT CFOT DFOT
    (.tup Cinv.1 Cinv.2) Ipar (.arr 81 dCinvdC)
  let r2 ← compute_stress_derivatives_wrt_Phi E_mac E_mic AFOT BFOT CFOT DFOT
    (.tup Cinv.1 Cinv.2) Ipar
  let r3 ← compute_stress_derivatives_wrt_Gamma E_mac E_mic AFOT BFOT CFOT DFOT
    (.tup Cinv.1 Cinv.2) Ipar
  pure (r1.1, r2.1, r3.1, r1.2.1, r2.2.1, r3.2.1, r1.2.2, r2.2.2, r3.2.2)

/-- The names defined at module level in
`micromorphic_linear_elasticity.py` (its imports and its `def`/`class`
statements). -/
def moduleGlobals : List String :=
  ["np", "hex8", "fd", "unittest", "os", "T2V", "V2T",
   "compute_strain_measures", "compute_dCinvdC", "form_stiffness_tensors",
   "form_A", "form_B", "form_C", "form_D", "compute_pk2_stress",
   "compute_symmetric_stress", "compute_ho_stress", "compute_tangents",
   "compute_stress_derivatives_wrt_C", "compute_stress_derivatives_wrt_Phi",
   "compute_stress_derivatives_wrt_Gamma", "micromorphic_linear_elasticity",
   "TestMicro_LE"]

/-- Resolving a global name, as Python does when a statement executes. -/
def resolveName (n : String) : Except String Unit :=
  if moduleGlobals.contains n then .ok ()
  else .error ("NameError: name " ++ n ++ " is not defined")

/-- Run-time model of the top-level entry point
`micromorphic_linear_elasticity` (lines 323-331).  Its first statement calls
`get_deformation_measures`, defined nowhere in the module or its imports, so
the call raises `NameError` before anything is computed; the later statements
would reference the further undefined names `E_macro`, `E_micro` (line 327)
and `compute_higher_order_stress` (line 329). -/
def micromorphic_linear_elasticity (F chi : Fin 9 → ℚ) (grad_chi : Fin 27 → ℚ)
    (params : ℚ × ℚ × ℚ × ℚ × ℚ × ℚ × ℚ × (Fin 11 → ℚ)) : Except String Unit := do
  let _ ← resolveName "get_deformation_measures"
  let _ ← resolveName "form_stiffness_tensors"
  let _ ← resolveName "E_macro"
  let _ ← resolveName "E_micro"
  let _ ← resolveName "compute_symmetric_stress"
  let _ ← resolveName "compute_higher_order_stress"
  let _ ← resolveName "compute_tangents"
  .error "unreachable: the call on line 325 has no callee"

/-- C3: `compute_tangents` and its sub-builder
`compute_stress_derivatives_wrt_C` raise before returning anything, on every
input: `compute_tangents` dies inside `compute_dCinvdC` subscripting the
`(det, Minv)` tuple, and the sub-builder (called directly with the flat
pipeline arrays) dies at `TERM1[I,J,O,P] = AFOT[I,J,O,P]`, a 4-tuple subscript
of the flat length-81 stiffness array; so no call ever produces the nine
tangent tensors. -/
theorem compute_tangents_always_errors
    (AFOT BFOT CFOT DFOT E_mac E_mic Gamma Ipar : PyObj) (C : Fin 9 → ℚ)
    ( E_mac2 E_mic2 Cinv2 : Fin 9 → ℚ) (af bf df dc : Fin 81 → ℚ)
    (cf : Fin 729 → ℚ) :
    compute_tangents AFOT BFOT CFOT DFOT E_mac E_mic C Gamma
      = .error "IndexError: tuple index out of range"
    ∧ compute_stress_derivatives_wrt_C (.arr 9 E_mac2) (.arr 9 E_mic2)
        (.arr 81 af) (.arr 81 bf) (.arr 729 cf) (.arr 81 df) (.arr 9 Cinv2)
        Ipar (.arr 81 dc)
      = .error "IndexError: too many indices for array" :=
  ⟨rfl, rfl⟩

/-- C4 failing-input evidence: at all-zero flat tensors of the pipeline
shapes, `compute_stress_derivatives_wrt_Phi` raises `IndexError` (at
`DFOT[I,J,O,P]`, line 283) instead of returning the order-5 zero `dMdPhi`. -/
theorem wrt_Phi_errors_at_failing_input :
    compute_stress_derivatives_wrt_Phi (.arr 9 (fun _ => 0)) (.arr 9 (fun _ => 0))
      (.arr 81 (fun _ => 0)) (.arr 81 (fun _ => 0)) (.arr 729 (fun _ => 0))
      (.arr 81 (fun _ => 0)) (.arr 9 idV) (.mat3 Iten)
      = .error "IndexError: too many indices for array" :=
  rfl

/-- C10: the top-level entry point raises `NameError` on its first statement
(the call to the undefined `get_deformation_measures`) for every input, so the
combined stress-plus-tangents result is never returned. -/
theorem micromorphic_linear_elasticity_name_error
    (F chi : Fin 9 → ℚ) (grad_chi : Fin 27 → ℚ)
    (params : ℚ × ℚ × ℚ × ℚ × ℚ × ℚ × ℚ × (Fin 11 → ℚ)) :
    micromorphic_linear_elasticity F chi grad_chi params
      = .error "NameError: name get_deformation_measures is not defined" :=
  rfl

end Micromorphic
